import Mathlib

/-!
Shallow embedding of genstatetm's `main.go` (the second, current version of
the program in that file): the `Description`/`State`/`Transition` data
model, the `camel` identifier deriver, the `compile` code generator with
its inline validation, and the semantics of the generated `Event` and
`SetState` routines.

Conventions:
* a Go `panic` aborts the run, so a panicking computation is modelled as
  `Except.error` carrying the panic message;
* Go iterates `statesMap` afresh at `main.go` lines 358, 380 and 399 and
  `eventsMap` at line 384; a Go map traversal's key order is unspecified,
  so each traversal's order enters `compile` as an explicit parameter;
* every `writef` call of `compile` becomes one string chunk, in emission
  order; the whole output text is the concatenation of the chunks.
-/

namespace Genstatem

/-- Transition record (`main.go` lines 224-238). -/
structure Transition where
  Event : String
  To : String
  Action : String
  Condition : String
deriving DecidableEq

/-- State record (`main.go` lines 212-222). -/
structure State where
  Name : String
  On : String
  Transitions : List Transition
deriving DecidableEq

/-- Description record (`main.go` lines 196-210). -/
structure Description where
  States : List State
  Name : String
  Package : String
  Init : String
  Iface : String
deriving DecidableEq

/-- The `camel` function (`main.go` lines 275-279): `str[0]` panics on the
empty string (index out of range), hence the `Option` result; on a nonempty
string the first character is upper-cased and the rest kept. Go indexes
raw bytes; names are modelled at character granularity, which agrees with
the byte view on ASCII names. -/
def camel (str : String) : Option String :=
  match str.data with
  | [] => none
  | c :: rest => some (String.mk (Char.toUpper c :: rest))

/-- Lookup in `statesMap`, the map keyed by `State.Name` built at
`main.go` lines 308-318. The map holds at most one state per name (a
duplicate panics), so first-match lookup in insertion order models it. -/
def findState (states : List State) (n : String) : Option State :=
  states.find? (fun s => s.Name == n)

/-- Lookup of a transition by event name among one state's transitions,
modelling the generated inner `switch event` (first matching case). -/
def findTrans (ts : List Transition) (ev : String) : Option Transition :=
  ts.find? (fun t => t.Event == ev)

/-- Per-state duplicate-event scan (`main.go` lines 320-332): panics at the
first duplicate event inside one state's transition list. -/
def scanTrans (seen : List String) : List Transition → Except String Unit
  | [] => Except.ok ()
  | t :: rest =>
    if seen.contains t.Event then
      Except.error ("Can\x27t have two transitions for the same event. Duplicate event: " ++ t.Event ++ ".")
    else scanTrans (t.Event :: seen) rest

/-- State scan (`main.go` lines 311-333): walks the states in input order
and panics at the first duplicate state name or duplicate event-in-state. -/
def scanStates (seen : List String) : List State → Except String Unit
  | [] => Except.ok ()
  | s :: rest =>
    if seen.contains s.Name then
      Except.error ("Duplicate state: " ++ s.Name)
    else
      match scanTrans [] s.Transitions with
      | Except.error e => Except.error e
      | Except.ok _ => scanStates (s.Name :: seen) rest

/-- Go's `%q` verb applied to a plain name: wrap in double quotes (none of
the names emitted here need escaping). -/
def quote (s : String) : String := "\"" ++ s ++ "\""

/-- The `ifaceStr` prefix used at generated call sites when an interface is
configured (`main.go` lines 362-366, 408-412, 420-424, 446-450). -/
def ifacePrefix (iface : String) : String :=
  if iface = "" then "" else "sm.iface."

/-- One traversal of `statesMap` in a caller-supplied key order: each key
of the order is resolved through the map. -/
def iterStates (states : List State) (ord : List String) : List State :=
  ord.filterMap (fun k => findState states k)

/-- The key set of `eventsMap` (`main.go` line 331): every transition event
of the description. -/
def allEvents (states : List State) : List String :=
  states.foldr (fun s acc => s.Transitions.map (fun t => t.Event) ++ acc) []

/-- One traversal of `eventsMap` in a caller-supplied key order. -/
def iterEvents (states : List State) (ord : List String) : List String :=
  ord.filter (fun k => (allEvents states).contains k)

/-- Output chunks of `main.go` lines 282-306 (file header, marker types,
machine struct, `State()` accessor), one chunk per `writef`. -/
def headerChunks (name iface pkg : String) : List String :=
  ["// Code generated by genstatem; DO NOT EDIT.\n\n",
   "package " ++ pkg ++ "\n\n",
   "import \"fmt\"\n",
   "import \"errors\"\n",
   "import \"sync\"\n\n",
   "// An Event is an \x27Event\x27 that can occur.\n",
   "type Event string\n\n",
   "// A State is a \x27State\x27 a state machine can be in.\n",
   "type State string\n\n",
   "// " ++ name ++ " is a state machine.\n",
   "type " ++ name ++ " struct \x7b\n",
   "\tstate State\n",
   "\tmu *sync.RWMutex\n"]
  ++ (if iface = "" then [] else ["\tiface " ++ iface ++ "\n"])
  ++ ["\x7d\n\n",
      "// State returns the state the state machine is in.\n",
      "func (sm *" ++ name ++ ") State() State \x7b\n",
      "\tsm.mu.RLock()\n",
      "\tdefer sm.mu.RUnlock()\n\n",
      "\treturn sm.state\n\x7d\n\n"]

/-- Chunks of `main.go` lines 339-346 (`SetIface`, emitted only when an
interface is configured). -/
def setIfaceChunks (name iface : String) : List String :=
  if iface = "" then [] else
  ["// SetIface sets the internal state of the state machine.\n",
   "func (sm *" ++ name ++ ") SetIface(iface " ++ iface ++ ") \x7b\n",
   "\tsm.mu.Lock()\n",
   "\tdefer sm.mu.Unlock()\n",
   "\tsm.iface = iface\n",
   "\x7d\n\n"]

/-- One `case` of the generated `SetState` switch (`main.go` lines
358-372); only states with an `On` callback get a case. -/
def setStateCase (iface : String) (s : State) : List String :=
  if s.On = "" then [] else
  ["\t\tcase " ++ quote s.Name ++ ":\n",
   "\t\t\tif err := " ++ ifacePrefix iface ++ s.On ++ "(event, sm.state); err != nil \x7b\n",
   "\t\t\t\treturn err\n",
   "\t\t\t\x7d\n"]

/-- Chunks of the generated `SetState` (`main.go` lines 348-378); the
switch cases follow the first `statesMap` traversal order. -/
def setStateChunks (name iface : String) (states : List State) : List String :=
  ["// SetState sets the state of the state machine. If invokeOn\n",
   "// is true then it\x27ll also invoke the \x27on\x27 function for that state.\n",
   "// The parameter event is passed as the event parameter to the \x27on\x27 function.\n",
   "func (sm *" ++ name ++ ") SetState(state State, event Event, invokeOn bool) error \x7b\n",
   "\tsm.mu.Lock()\n",
   "\tdefer sm.mu.Unlock()\n",
   "\tsm.state = state\n",
   "\tif invokeOn \x7b\n",
   "\t\tswitch state \x7b\n"]
  ++ states.foldr (fun s acc => setStateCase iface s ++ acc) []
  ++ ["\t\t\x7d\n", "\t\x7d\n\n", "\treturn nil\n", "\x7d\n\n"]

/-- Go's runtime panic message for `str[0]` on an empty string. -/
def indexOutOfRange : String := "runtime error: index out of range [0] with length 0"

/-- State constant lines (`main.go` lines 380-382); `camel` may panic. -/
def stateConsts : List State → Except String (List String)
  | [] => Except.ok []
  | s :: rest =>
    match camel s.Name with
    | none => Except.error indexOutOfRange
    | some c =>
      match stateConsts rest with
      | Except.error e => Except.error e
      | Except.ok l => Except.ok (("const State" ++ c ++ " = " ++ quote s.Name ++ "\n") :: l)

/-- Event constant lines (`main.go` lines 384-386); `camel` may panic. -/
def eventConsts : List String → Except String (List String)
  | [] => Except.ok []
  | k :: rest =>
    match camel k with
    | none => Except.error indexOutOfRange
    | some c =>
      match eventConsts rest with
      | Except.error e => Except.error e
      | Except.ok l => Except.ok (("const Event" ++ c ++ " = " ++ quote k ++ "\n") :: l)

/-- The literal `return errors.New(...)` line emitted for the default
branch (`main.go` lines 463-464); note that the would-be format arguments
`event, sm.state` stand INSIDE the emitted format string's quotes. -/
def invalidEventLine : String :=
  "\t\t\treturn errors.New(fmt.Sprintf(\"Event `%s` is not valid during state `%s`, event, sm.state\"))\n"

/-- Chunks for one transition case of the generated `Event` switch
(`main.go` lines 404-461): the case label, then the condition opener, the
action block, the state assignment plus the target's entry (`on`) call when
a target is named, then the condition closer. A missing target state
panics (`main.go` lines 435-440). -/
def transChunks (states : List State) (iface : String) (sName : String) (t : Transition) :
    Except String (List String) :=
  let condOpen : List String :=
    if t.Condition = "" then [] else
    ["\t\t\tif ok, err := " ++ ifacePrefix iface ++ t.Condition ++ "(event, sm.state); true \x7b\n",
     "\t\t\tif err != nil \x7b return err \x7d\n",
     "\t\t\tif ok\x7b\n"]
  let actionChunks : List String :=
    if t.Action = "" then [] else
    ["\t\t\tif err := " ++ ifacePrefix iface ++ t.Action ++ "(event, sm.state); err != nil \x7b\n",
     "\t\t\t\treturn err\n",
     "\t\t\t\x7d\n"]
  let condClose : List String :=
    if t.Condition = "" then [] else ["\t\t\t\x7d\x7d\n"]
  if t.To = "" then
    Except.ok (["\t\tcase " ++ quote t.Event ++ ":\n"] ++ condOpen ++ actionChunks ++ condClose)
  else
    match findState states t.To with
    | none =>
      Except.error ("Target state in transition from state `" ++ sName ++ "` to `"
        ++ t.To ++ "` on event `" ++ t.Event ++ "` does not exist.")
    | some ts =>
      let onChunks : List String :=
        if ts.On = "" then [] else
        ["\t\t\tif err := " ++ ifacePrefix iface ++ ts.On ++ "(event, sm.state); err != nil \x7b\n",
         "\t\t\t\treturn err\n",
         "\t\t\t\x7d\n"]
      Except.ok (["\t\tcase " ++ quote t.Event ++ ":\n"] ++ condOpen ++ actionChunks
        ++ ["\t\t\tsm.state = " ++ quote t.To ++ "\n"] ++ onChunks ++ condClose)

/-- Chunks for a whole transition list, in input order. -/
def transListChunks (states : List State) (iface : String) (sName : String) :
    List Transition → Except String (List String)
  | [] => Except.ok []
  | t :: rest =>
    match transChunks states iface sName t with
    | Except.error e => Except.error e
    | Except.ok c =>
      match transListChunks states iface sName rest with
      | Except.error e => Except.error e
      | Except.ok l => Except.ok (c ++ l)

/-- One outer `case` of the generated `Event` switch (`main.go` lines
399-467): the state's case label, the inner `switch event` with one case
per transition, and the default branch returning the invalid-event error. -/
def stateEventChunks (states : List State) (iface : String) (s : State) :
    Except String (List String) :=
  match transListChunks states iface s.Name s.Transitions with
  | Except.error e => Except.error e
  | Except.ok body =>
    Except.ok (["\tcase " ++ quote s.Name ++ ":\n", "\t\tswitch event \x7b\n"]
      ++ body ++ ["\t\tdefault:\n", invalidEventLine, "\t\t\x7d\n"])

/-- Outer cases of the generated `Event` switch for a traversal of
`statesMap`. -/
def eventCases (states : List State) (iface : String) : List State → Except String (List String)
  | [] => Except.ok []
  | s :: rest =>
    match stateEventChunks states iface s with
    | Except.error e => Except.error e
    | Except.ok c =>
      match eventCases states iface rest with
      | Except.error e => Except.error e
      | Except.ok l => Except.ok (c ++ l)

/-- Constructor chunks (`main.go` lines 473-483). -/
def ctorChunks (name init iface : String) : List String :=
  if iface = "" then
    ["// New" ++ name ++ "() creates a new state machine.\n",
     "func New" ++ name ++ "() *" ++ name ++ "\x7b\n",
     "\treturn &" ++ name ++ "\x7bstate:" ++ quote init ++ ", mu: &sync.RWMutex\x7b\x7d\x7d\n",
     "\x7d\n\n"]
  else
    ["// New" ++ name ++ " creates a new state machine.\n",
     "func New" ++ name ++ "(iface " ++ iface ++ ") *" ++ name ++ "\x7b\n",
     "\treturn &" ++ name ++ "\x7bstate:" ++ quote init ++ ", mu: &sync.RWMutex\x7b\x7d, iface: iface\x7d\n",
     "\x7d\n\n"]

/-- The `compile` function (`main.go` lines 281-484). A panic aborts the
run (the partially written buffer is never used), so errors carry the
panic message and discard the chunks. The panic order follows the source:
the duplicate scan (lines 311-333), then the init check (line 335), then
`camel` on state names (line 381), `camel` on event names (line 385), and
the missing-target check inside the `Event` emission loop (lines 435-440).
`ord1`, `ord2`, `ord3` are the key orders of the three `statesMap`
traversals (lines 358, 380, 399) and `ordE` that of the `eventsMap`
traversal (line 384). -/
def compile (desc : Description) (pkg : String)
    (ord1 ord2 ord3 ordE : List String) : Except String (List String) :=
  match scanStates [] desc.States with
  | Except.error e => Except.error e
  | Except.ok _ =>
    if (findState desc.States desc.Init).isNone then
      Except.error ("Init state `" ++ desc.Init ++ "` does not exist.")
    else
      match stateConsts (iterStates desc.States ord2) with
      | Except.error e => Except.error e
      | Except.ok sc =>
        match eventConsts (iterEvents desc.States ordE) with
        | Except.error e => Except.error e
        | Except.ok ec =>
          match eventCases desc.States desc.Iface (iterStates desc.States ord3) with
          | Except.error e => Except.error e
          | Except.ok evs =>
            Except.ok (headerChunks desc.Name desc.Iface pkg
              ++ setIfaceChunks desc.Name desc.Iface
              ++ setStateChunks desc.Name desc.Iface (iterStates desc.States ord1)
              ++ sc ++ ec ++ ["const NoEvent = \"\"\n", "\n\n"]
              ++ ["// Event informs the state machine about an occured \x27Event\x27. The state\n",
                  "// machine will then transition into the correct target state and invoke the\n",
                  "// registered callbacks.\n",
                  "func (sm *" ++ desc.Name ++ ") Event(event Event) error \x7b\n",
                  "\tsm.mu.Lock()\n",
                  "\tdefer sm.mu.Unlock()\n\n",
                  "\tswitch sm.state \x7b\n"]
              ++ evs
              ++ ["\t\x7d\n\n", "\treturn nil\n", "\x7d\n\n"]
              ++ ctorChunks desc.Name desc.Init desc.Iface)

/-! ### Semantics of the generated routines

The generated `Event` and `SetState` routines are Go code whose control
flow is fully determined by the description (the emitted switches have one
case per map entry, and `compile` rejects duplicate state names and
duplicate events-in-state, so at most one case matches and the match is
independent of the map traversal order used at emission time). Their
behaviour is modelled as functions of the description, an environment
giving the behaviour of the user-supplied callbacks, and the call
arguments. -/

/-- The behaviour of the user-supplied callbacks the generated code calls
by name: `action` covers transition actions and entry (`on`) callbacks of
type `func(Event, State) error` (arguments: callback name, event, state;
result `none` = nil error); `cond` covers conditions of type
`func(Event, State) (bool, error)`. -/
structure Env where
  action : String → String → String → Option String
  cond : String → String → String → Bool × Option String

/-- Observable outcome of one generated routine call: the machine state
afterwards, the returned error (`none` = nil), and the callback
invocations made, in order, as (callback name, event argument, state
argument) triples. -/
structure Outcome where
  state : String
  err : Option String
  calls : List (String × String × String)
deriving DecidableEq

/-- The error value returned by the generated default branch: the emitted
`fmt.Sprintf` call (see `invalidEventLine`) has no arguments, so both `%s`
verbs render as `%!s(MISSING)` and the message is one constant, identical
whatever the current state and event are. -/
def invalidEventMsg : String :=
  "Event `%!s(MISSING)` is not valid during state `%!s(MISSING)`, event, sm.state"

/-- Commit part of a matched transition case (`main.go` lines 432-456):
when a target state is named, `sm.state = target` is executed first and
the target's entry (`on`) callback, if any, runs afterwards with the state
already updated; its error is returned with the state left at the target.
With no target named, nothing happens. (The `findState _ = none` branch is
unreachable for a description `compile` accepted: emission panics there,
so no generated code exists.) -/
def commitPart (desc : Description) (env : Env) (cs ev : String) (t : Transition)
    (tr : List (String × String × String)) : Outcome :=
  if t.To = "" then ⟨cs, none, tr⟩
  else
    match findState desc.States t.To with
    | none => ⟨t.To, none, tr⟩
    | some ts =>
      if ts.On = "" then ⟨t.To, none, tr⟩
      else
        match env.action ts.On ev t.To with
        | some e => ⟨t.To, some e, tr ++ [(ts.On, ev, t.To)]⟩
        | none => ⟨t.To, none, tr ++ [(ts.On, ev, t.To)]⟩

/-- Action part of a matched transition case (`main.go` lines 419-429):
the action, if any, runs with the state still at the source; an action
error returns immediately with the state unchanged, otherwise the commit
part follows. -/
def transBody (desc : Description) (env : Env) (cs ev : String) (t : Transition)
    (tr : List (String × String × String)) : Outcome :=
  if t.Action = "" then commitPart desc env cs ev t tr
  else
    match env.action t.Action ev cs with
    | some e => ⟨cs, some e, tr ++ [(t.Action, ev, cs)]⟩
    | none => commitPart desc env cs ev t (tr ++ [(t.Action, ev, cs)])

/-- The generated `Event` routine (`main.go` lines 391-471). Outer switch
on the current state: a current state that is not a declared state matches
no case and the routine falls through to `return nil`. Inner switch on the
event: no matching transition hits the default branch returning
`invalidEventMsg`. A matched transition first evaluates its condition, if
any (`main.go` lines 407-417): an evaluation error returns immediately; a
false result skips the whole body and the routine returns nil; otherwise
the action/commit body runs. -/
def eventSem (desc : Description) (env : Env) (cs ev : String) : Outcome :=
  match findState desc.States cs with
  | none => ⟨cs, none, []⟩
  | some s =>
    match findTrans s.Transitions ev with
    | none => ⟨cs, some invalidEventMsg, []⟩
    | some t =>
      if t.Condition = "" then transBody desc env cs ev t []
      else
        match env.cond t.Condition ev cs with
        | (_, some e) => ⟨cs, some e, [(t.Condition, ev, cs)]⟩
        | (true, none) => transBody desc env cs ev t [(t.Condition, ev, cs)]
        | (false, none) => ⟨cs, none, [(t.Condition, ev, cs)]⟩

/-- The generated `SetState` routine (`main.go` lines 348-378):
`sm.state = state` runs unconditionally; when `invokeOn` is true and the
requested state is a declared state with an `On` callback, that callback
runs afterwards with the state already set, and its error is returned with
the state left at the requested value. -/
def setStateSem (desc : Description) (env : Env) (st ev : String) (invokeOn : Bool) : Outcome :=
  if invokeOn then
    match findState desc.States st with
    | none => ⟨st, none, []⟩
    | some s =>
      if s.On = "" then ⟨st, none, []⟩
      else
        match env.action s.On ev st with
        | some e => ⟨st, some e, [(s.On, ev, st)]⟩
        | none => ⟨st, none, [(s.On, ev, st)]⟩
  else ⟨st, none, []⟩

/-! ### Concrete fixtures used by witnesses and counterexamples -/

/-- The spec §8 end-to-end machine: `idle --start--> running`, `running`
has entry action `onRunning`, initial state `idle`. -/
def dIdleRun : Description :=
  ⟨[⟨"idle", "", [⟨"start", "running", "", ""⟩]⟩,
    ⟨"running", "onRunning", []⟩], "M", "main", "idle", ""⟩

/-- Callbacks where `onRunning` errors with "boom" and everything else
succeeds; conditions hold. -/
def envBoom : Env :=
  ⟨fun n _ _ => if n = "onRunning" then some "boom" else none,
   fun _ _ _ => (true, none)⟩

/-- Callbacks that all succeed; conditions hold. -/
def envOk : Env := ⟨fun _ _ _ => none, fun _ _ _ => (true, none)⟩

/-- A machine with one guarded, actioned transition `a --go--> b`
(condition `chk`, action `act`), `b` has entry action `onB`. -/
def dCond : Description :=
  ⟨[⟨"a", "", [⟨"go", "b", "act", "chk"⟩]⟩, ⟨"b", "onB", []⟩], "M", "main", "a", ""⟩

/-- Callbacks whose condition evaluates to false without error. -/
def envCondFalse : Env := ⟨fun _ _ _ => none, fun _ _ _ => (false, none)⟩

/-- Callbacks whose condition evaluation errors with "cerr". -/
def envCondErr : Env := ⟨fun _ _ _ => none, fun _ _ _ => (true, some "cerr")⟩

/-- Callbacks where the action `act` errors with "aerr"; conditions hold. -/
def envActErr : Env :=
  ⟨fun n _ _ => if n = "act" then some "aerr" else none,
   fun _ _ _ => (true, none)⟩

/-- A description with all four validation-error classes at once: a
duplicate state name (`a` twice), a duplicate event within one state
(`e` twice in `b`), a missing transition target (`zz`), and a missing
initial state (`nope`). -/
def dAllErrors : Description :=
  ⟨[⟨"a", "", []⟩, ⟨"a", "", []⟩,
    ⟨"b", "", [⟨"e", "zz", "", ""⟩, ⟨"e", "zz", "", ""⟩]⟩], "M", "main", "nope", ""⟩

/-- A description with exactly two validation-error classes: a duplicate
state name (`a` twice) and a missing initial state (`zz`). -/
def dDupAndNoInit : Description :=
  ⟨[⟨"a", "", []⟩, ⟨"a", "", []⟩], "M", "main", "zz", ""⟩

/-- A description whose two distinct state names `idle` and `Idle` derive
the same constant identifier `StateIdle`. -/
def dCollide : Description :=
  ⟨[⟨"idle", "", []⟩, ⟨"Idle", "", []⟩], "M", "main", "idle", ""⟩

/-- An iteration order for `dCollide`. -/
def ordCollide : List String := ["idle", "Idle"]

/-- The chunk list of a successful compilation (empty on error). -/
def okChunks : Except String (List String) → List String
  | Except.ok l => l
  | Except.error _ => []

/-- A minimal valid description with two states and no transitions. -/
def dTwoStates : Description := ⟨[⟨"a", "", []⟩, ⟨"b", "", []⟩], "M", "main", "a", ""⟩

/-- The key set of `statesMap`: the description's state names. -/
def stateKeys (desc : Description) : List String := desc.States.map (fun s => s.Name)

deriving instance DecidableEq for Except

/-! ### Helper lemmas about the generated-routine semantics -/

/-- When the matched transition names an existing target state whose entry
callback errors, the commit part ends in the target state and returns that
error. -/
theorem commitPart_entry_error (desc : Description) (env : Env) (cs ev : String)
    (t : Transition) (ts : State) (e : String) (tr : List (String × String × String))
    (hTo : t.To ≠ "") (hTs : findState desc.States t.To = some ts)
    (hOn : ts.On ≠ "") (hE : env.action ts.On ev t.To = some e) :
    commitPart desc env cs ev t tr = ⟨t.To, some e, tr ++ [(ts.On, ev, t.To)]⟩ := by
  simp only [commitPart, if_neg hTo, hTs, if_neg hOn, hE]

/-- When the action is absent or succeeds, the transition body proceeds to
the commit part, recording the action call if there was one. -/
theorem transBody_pass (desc : Description) (env : Env) (cs ev : String)
    (t : Transition) (tr : List (String × String × String))
    (hA : t.Action = "" ∨ env.action t.Action ev cs = none) :
    transBody desc env cs ev t tr =
      commitPart desc env cs ev t
        (tr ++ (if t.Action = "" then [] else [(t.Action, ev, cs)])) := by
  unfold transBody
  by_cases hA0 : t.Action = ""
  · rw [if_pos hA0, if_pos hA0, List.append_nil]
  · have hAn : env.action t.Action ev cs = none := hA.resolve_left hA0
    rw [if_neg hA0, hAn, if_neg hA0]

/-- When the current state and the transition are matched and the
condition is absent or evaluates to true without error, `Event` runs the
transition body, recording the condition call if there was one. -/
theorem eventSem_matched (desc : Description) (env : Env) (cs ev : String)
    (s : State) (t : Transition)
    (hS : findState desc.States cs = some s)
    (hT : findTrans s.Transitions ev = some t)
    (hC : t.Condition = "" ∨ env.cond t.Condition ev cs = (true, none)) :
    eventSem desc env cs ev =
      transBody desc env cs ev t
        (if t.Condition = "" then [] else [(t.Condition, ev, cs)]) := by
  by_cases hC0 : t.Condition = ""
  · simp only [eventSem, hS, hT, if_pos hC0]
  · have hCt : env.cond t.Condition ev cs = (true, none) := hC.resolve_left hC0
    simp only [eventSem, hS, hT, if_neg hC0, hCt]

/-! ### The claims -/

/-- Claim C1: in the generated `Event` routine, when a matched transition
(condition passed or absent, action succeeded or absent) names a target
state whose entry action errors, the state change has already been
committed before the entry action runs: the outcome's state is the target
state, the entry action's error is returned, and the entry callback was
invoked with the state already set to the target — no rollback. -/
theorem event_entry_error_commits
    (desc : Description) (env : Env) (cs ev : String)
    (s : State) (t : Transition) (ts : State) (e : String)
    (hS : findState desc.States cs = some s)
    (hT : findTrans s.Transitions ev = some t)
    (hC : t.Condition = "" ∨ env.cond t.Condition ev cs = (true, none))
    (hA : t.Action = "" ∨ env.action t.Action ev cs = none)
    (hTo : t.To ≠ "")
    (hTs : findState desc.States t.To = some ts)
    (hOn : ts.On ≠ "")
    (hE : env.action ts.On ev t.To = some e) :
    eventSem desc env cs ev =
      ⟨t.To, some e,
        ((if t.Condition = "" then [] else [(t.Condition, ev, cs)])
          ++ (if t.Action = "" then [] else [(t.Action, ev, cs)]))
        ++ [(ts.On, ev, t.To)]⟩ := by
  rw [eventSem_matched desc env cs ev s t hS hT hC,
      transBody_pass desc env cs ev t _ hA,
      commitPart_entry_error desc env cs ev t ts e _ hTo hTs hOn hE]

/-- Witness for C1 on the spec §8 machine: dispatching `start` from `idle`
with `onRunning` erroring ends in `running` with the error returned. -/
theorem event_entry_error_commits_witness :
    eventSem dIdleRun envBoom "idle" "start" =
      ⟨"running", some "boom", [("onRunning", "start", "running")]⟩ := by
  have h := event_entry_error_commits dIdleRun envBoom "idle" "start"
    ⟨"idle", "", [⟨"start", "running", "", ""⟩]⟩ ⟨"start", "running", "", ""⟩
    ⟨"running", "onRunning", []⟩ "boom" (by decide) (by decide)
    (Or.inl rfl) (Or.inl rfl) (by decide) (by decide) (by decide) (by decide)
  simpa using h

/-- Claim C2: in the generated `Event` routine, a matched transition whose
condition evaluates to false (without error) has no effect: no action
runs, the state is unchanged, no error is returned; and a condition whose
evaluation errors returns that error immediately, with no action and no
state change. In both cases the only callback invoked is the condition. -/
theorem event_condition_gate
    (desc : Description) (env : Env) (cs ev : String)
    (s : State) (t : Transition)
    (hS : findState desc.States cs = some s)
    (hT : findTrans s.Transitions ev = some t)
    (hC : t.Condition ≠ "") :
    (env.cond t.Condition ev cs = (false, none) →
      eventSem desc env cs ev = ⟨cs, none, [(t.Condition, ev, cs)]⟩) ∧
    (∀ b e, env.cond t.Condition ev cs = (b, some e) →
      eventSem desc env cs ev = ⟨cs, some e, [(t.Condition, ev, cs)]⟩) := by
  constructor
  · intro h
    simp only [eventSem, hS, hT, if_neg hC, h]
  · intro b e h
    simp only [eventSem, hS, hT, if_neg hC, h]

/-- Witness for C2: on the guarded machine `dCond`, a false condition
leaves the state at `a` with no error, and an erroring condition returns
`cerr`; in both cases only the condition `chk` was invoked. -/
theorem event_condition_gate_witness :
    eventSem dCond envCondFalse "a" "go" = ⟨"a", none, [("chk", "go", "a")]⟩ ∧
    eventSem dCond envCondErr "a" "go" = ⟨"a", some "cerr", [("chk", "go", "a")]⟩ :=
  ⟨(event_condition_gate dCond envCondFalse "a" "go"
      ⟨"a", "", [⟨"go", "b", "act", "chk"⟩]⟩ ⟨"go", "b", "act", "chk"⟩
      (by decide) (by decide) (by decide)).1 rfl,
   (event_condition_gate dCond envCondErr "a" "go"
      ⟨"a", "", [⟨"go", "b", "act", "chk"⟩]⟩ ⟨"go", "b", "act", "chk"⟩
      (by decide) (by decide) (by decide)).2 true "cerr" rfl⟩

/-- Claim C3: in the generated `Event` routine, when a matched
transition's action errors (after the condition, if any, passed), the call
aborts: the state is unchanged, the error is returned, and the only
callbacks invoked were the condition (if any) and the action — no
target-state entry action runs. -/
theorem event_action_error_aborts
    (desc : Description) (env : Env) (cs ev : String)
    (s : State) (t : Transition) (e : String)
    (hS : findState desc.States cs = some s)
    (hT : findTrans s.Transitions ev = some t)
    (hC : t.Condition = "" ∨ env.cond t.Condition ev cs = (true, none))
    (hA0 : t.Action ≠ "")
    (hE : env.action t.Action ev cs = some e) :
    eventSem desc env cs ev =
      ⟨cs, some e,
        (if t.Condition = "" then [] else [(t.Condition, ev, cs)])
          ++ [(t.Action, ev, cs)]⟩ := by
  rw [eventSem_matched desc env cs ev s t hS hT hC]
  simp only [transBody, if_neg hA0, hE]

/-- Witness for C3: on `dCond` with action `act` erroring, the machine
stays in `a`, returns `aerr`, and the entry action `onB` never ran. -/
theorem event_action_error_aborts_witness :
    eventSem dCond envActErr "a" "go" =
      ⟨"a", some "aerr", [("chk", "go", "a"), ("act", "go", "a")]⟩ := by
  have h := event_action_error_aborts dCond envActErr "a" "go"
    ⟨"a", "", [⟨"go", "b", "act", "chk"⟩]⟩ ⟨"go", "b", "act", "chk"⟩ "aerr"
    (by decide) (by decide) (Or.inr rfl) (by decide) (by decide)
  simpa using h

/-- Claim C4, amended: when the current state is one of the description's
declared states and it has no transition for the incoming event (in
particular when it has no transitions at all), the generated `Event`
routine leaves the state unchanged, invokes no callback, and returns the
invalid-event error — one constant value, so the no-transitions and
wrong-event cases are indistinguishable to the caller. (When the current
state is NOT a declared state, `Event` instead falls through the outer
switch and returns nil; see the counterexample.) -/
theorem event_unregistered_event_error
    (desc : Description) (env : Env) (cs ev : String) (s : State)
    (hS : findState desc.States cs = some s)
    (hT : findTrans s.Transitions ev = none) :
    eventSem desc env cs ev = ⟨cs, some invalidEventMsg, []⟩ := by
  simp only [eventSem, hS, hT]

/-- Witness for the amended C4: on the spec §8 machine, dispatching
`start` while in `running` (a declared state with no transitions) returns
the invalid-event error and leaves the state unchanged. -/
theorem event_unregistered_event_error_witness :
    eventSem dIdleRun envOk "running" "start" =
      ⟨"running", some invalidEventMsg, []⟩ :=
  event_unregistered_event_error dIdleRun envOk "running" "start"
    ⟨"running", "onRunning", []⟩ (by decide) (by decide)

/-- Counterexample to C4 as stated: `bogus` is a current state with no
transitions registered for it (it is not in the transition table at all,
reachable via the generated `SetState`, which stores any state without
validation), yet the generated `Event` routine returns nil — the outer
switch has no default case, so the call falls through to `return nil`
instead of failing with the invalid-event error. -/
theorem event_unknown_state_silently_ok :
    findState dIdleRun.States "bogus" = none ∧
    eventSem dIdleRun envOk "bogus" "start" = ⟨"bogus", none, []⟩ := by
  decide

/-- Claim C5, amended (for its theorem): validation stops at the first
error it finds, in check order — duplicate state / duplicate
event-in-state during the input-order scan, then the missing initial
state, then missing transition targets during generation. On a
description containing all four error classes, `compile` reports only the
duplicate-state error. -/
theorem validation_first_error_only :
    compile dAllErrors "main" [] [] [] [] = Except.error ("Duplicate state: a") := by
  decide

/-- Counterexample to C5 as stated: `dDupAndNoInit` contains two error
classes (duplicate state `a` and an initial state `zz` that names no
state), yet `compile` reports only the duplicate-state error — the
missing-init class present in the input goes unreported, so validation
does not report every error class present. -/
theorem validation_not_exhaustive :
    findState dDupAndNoInit.States dDupAndNoInit.Init = none ∧
    compile dDupAndNoInit "main" [] [] [] [] = Except.error ("Duplicate state: a") := by
  decide

/-- Claim C6: `camel` is not total — on the empty string, `str[0]` is an
index out of range and the Go program panics (modelled by `none`); the
program fails rather than returning an identifier. -/
theorem camel_empty_fails : camel "" = none := rfl

/-- Claim C7: `compile` performs no derived-identifier collision check.
The two distinct state names `idle` and `Idle` derive the same constant
identifier, yet compilation succeeds and the output contains the two
colliding `const StateIdle` declarations. -/
theorem compile_silent_identifier_collision :
    camel "idle" = camel "Idle" ∧ ("idle" : String) ≠ "Idle" ∧
    ("const StateIdle = \"idle\"\n")
      ∈ okChunks (compile dCollide "main" ordCollide ordCollide ordCollide []) ∧
    ("const StateIdle = \"Idle\"\n")
      ∈ okChunks (compile dCollide "main" ordCollide ordCollide ordCollide []) := by
  decide

set_option maxRecDepth 8192 in
/-- Claim C8, amended: compilation output depends on the unspecified map
iteration order — there are two traversal orders of the same description's
state set under which `compile` produces different output texts, so the
output is not byte-for-byte reproducible across runs. -/
theorem compile_output_not_reproducible :
    ∃ o o' : List String,
      List.Perm o (stateKeys dTwoStates) ∧ List.Perm o' (stateKeys dTwoStates) ∧
      Except.map String.join (compile dTwoStates "main" o o o []) ≠
        Except.map String.join (compile dTwoStates "main" o o' o []) := by
  refine ⟨["a", "b"], ["b", "a"], ?_, ?_, ?_⟩ <;> decide

set_option maxRecDepth 8192 in
/-- Counterexample to C8 as stated: on the two-state description
`dTwoStates`, the state-constant traversal orders `["a", "b"]` and
`["b", "a"]` — both permutations of the state set, as a Go map range may
produce on two runs — yield different output texts. -/
theorem compile_output_order_dependent :
    List.Perm ["b", "a"] (stateKeys dTwoStates) ∧
    Except.map String.join (compile dTwoStates "main" ["a", "b"] ["a", "b"] ["a", "b"] []) ≠
      Except.map String.join (compile dTwoStates "main" ["a", "b"] ["b", "a"] ["a", "b"] []) := by
  decide

/-- Claim C9: the generated `SetState` routine sets the state to the
requested state unconditionally before the entry action is considered;
when `invokeOn` is true and the requested state's entry action errors, the
machine remains in the requested state and the error is returned — no
atomicity on entry-action failure. -/
theorem setState_commit_before_entry
    (desc : Description) (env : Env) (st ev : String) (s : State) (e : String)
    (hS : findState desc.States st = some s)
    (hOn : s.On ≠ "")
    (hE : env.action s.On ev st = some e) :
    setStateSem desc env st ev true = ⟨st, some e, [(s.On, ev, st)]⟩ := by
  simp only [setStateSem, if_pos, hS, if_neg hOn, hE]

/-- Witness for C9: forcing state `running` on the spec §8 machine with
`invokeOn = true` and `onRunning` erroring leaves the machine in
`running` and returns the error. -/
theorem setState_commit_before_entry_witness :
    setStateSem dIdleRun envBoom "running" "kick" true =
      ⟨"running", some "boom", [("onRunning", "kick", "running")]⟩ := by
  have h := setState_commit_before_entry dIdleRun envBoom "running" "kick"
    ⟨"running", "onRunning", []⟩ "boom" (by decide) (by decide) (by decide)
  simpa using h

/-- Claim C10: the compiler's output does not depend on the description's
`Package` field — replacing it by anything leaves `compile`'s result
unchanged for every package argument and every traversal order; the
emitted `package` clause comes solely from the `pkg` parameter. -/
theorem compile_ignores_package (d : Description) (p pkg : String)
    (o1 o2 o3 oE : List String) :
    compile { d with Package := p } pkg o1 o2 o3 oE = compile d pkg o1 o2 o3 oE := by
  cases d
  rfl

end Genstatem
